import Mathlib

/-!
Verification of the signup-vista form pages (src/src/pages/Signup.tsx and
src/src/pages/Login.tsx). Strings from the browser code are embedded as
`List Char`; the character-class regex tests `[a-z]`, `[A-Z]`, `[0-9]`,
`[^a-zA-Z0-9]` become `Char.isLower`, `Char.isUpper`, `Char.isDigit` and
the negation of alphanumeric, which coincide with the ASCII ranges the
regexes denote.
-/

namespace SignupVista

/-- The three ratings returned by `getPasswordStrength` in Signup.tsx. -/
inductive Strength
  | weak
  | medium
  | strong
deriving Repr, DecidableEq

/-- `[^a-zA-Z0-9]` from Signup.tsx line 84: a character that is not
ASCII-alphanumeric. -/
def isSpecialChar (c : Char) : Bool :=
  !(c.isAlpha || c.isDigit)

/-- The score accumulated by `getPasswordStrength` (Signup.tsx lines 74-84):
one point per satisfied check, in source order: length >= 8, length >= 12,
a lowercase letter present, an uppercase letter present, a digit present,
a non-alphanumeric character present. -/
def strengthScore (p : List Char) : Nat :=
  (if 8 ≤ p.length then 1 else 0)
    + (if 12 ≤ p.length then 1 else 0)
    + (if p.any Char.isLower then 1 else 0)
    + (if p.any Char.isUpper then 1 else 0)
    + (if p.any Char.isDigit then 1 else 0)
    + (if p.any isSpecialChar then 1 else 0)

/-- `getPasswordStrength` from Signup.tsx lines 71-89: the guard
`if (!password) return 'weak'` fires exactly on the empty string, then the
accumulated score is bucketed: <= 2 weak, <= 4 medium, otherwise strong. -/
def getPasswordStrength (p : List Char) : Strength :=
  if p.length = 0 then Strength.weak
  else if strengthScore p ≤ 2 then Strength.weak
  else if strengthScore p ≤ 4 then Strength.medium
  else Strength.strong

/-- The point-scoring reference exactly as the specification words it
(section 4.2): one point each for length >= 8, length >= 12, a lowercase
letter, an uppercase letter, a digit, a non-alphanumeric character. -/
def specStrengthScore (p : List Char) : Nat :=
  (if 8 ≤ p.length then 1 else 0)
    + (if 12 ≤ p.length then 1 else 0)
    + (if p.any Char.isLower then 1 else 0)
    + (if p.any Char.isUpper then 1 else 0)
    + (if p.any Char.isDigit then 1 else 0)
    + (if p.any isSpecialChar then 1 else 0)

/-- The rating map exactly as the specification words it (section 4.2):
score <= 2 weak, 3-4 medium, >= 5 strong. -/
def specStrengthRef (p : List Char) : Strength :=
  if specStrengthScore p ≤ 2 then Strength.weak
  else if specStrengthScore p ≤ 4 then Strength.medium
  else Strength.strong

/-- The four character classes the scoring heuristic distinguishes. -/
inductive CharClass
  | lower
  | upper
  | digit
  | special
deriving Repr, DecidableEq

/-- The class of a single character, by the same ASCII tests the source
regexes perform (a character is in exactly one class). -/
def charClass (c : Char) : CharClass :=
  if c.isLower then CharClass.lower
  else if c.isUpper then CharClass.upper
  else if c.isDigit then CharClass.digit
  else CharClass.special

/-- Whether some character of `p` falls in class `k`. -/
def classPresent (k : CharClass) (p : List Char) : Bool :=
  p.any (fun c => charClass c = k)

theorem strengthScore_eq_spec (p : List Char) :
    strengthScore p = specStrengthScore p := rfl

/-- A point contributed by a weaker condition never exceeds the point
contributed by a condition it implies. -/
theorem ite_one_mono {P Q : Prop} [Decidable P] [Decidable Q] (h : P → Q) :
    (if P then 1 else 0) ≤ (if Q then 1 else 0) := by
  by_cases hP : P
  · simp [hP, h hP]
  · simp [hP]

/-- C1: the password strength estimator, applied to any string, returns
exactly the rating given by the point-scoring reference of the
specification, and in particular rates the empty string weak, the string
abc weak, and the string Abc123!@#xyz strong. -/
theorem C1_strength_matches_spec :
    (∀ p : List Char, getPasswordStrength p = specStrengthRef p)
    ∧ getPasswordStrength ("".toList) = Strength.weak
    ∧ getPasswordStrength ("abc".toList) = Strength.weak
    ∧ getPasswordStrength ("Abc123!@#xyz".toList) = Strength.strong := by
  refine ⟨fun p => ?_, by decide, by decide, by decide⟩
  by_cases hp : p.length = 0
  · have h0 : p = [] := List.length_eq_zero.mp hp
    subst h0
    decide
  · simp [getPasswordStrength, specStrengthRef, hp, strengthScore_eq_spec]

/-- C2: appending a single character whose character class is not already
present never decreases the strength score. -/
theorem C2_score_append_mono (p : List Char) (c : Char)
    (h : classPresent (charClass c) p = false) :
    strengthScore p ≤ strengthScore (p ++ [c]) := by
  have hlen : p.length ≤ (p ++ [c]).length := by simp
  unfold strengthScore
  refine Nat.add_le_add (Nat.add_le_add (Nat.add_le_add (Nat.add_le_add
    (Nat.add_le_add ?_ ?_) ?_) ?_) ?_) ?_
  · exact ite_one_mono (fun h8 => le_trans h8 hlen)
  · exact ite_one_mono (fun h12 => le_trans h12 hlen)
  · exact ite_one_mono (fun ha => by simp [List.any_append, ha])
  · exact ite_one_mono (fun ha => by simp [List.any_append, ha])
  · exact ite_one_mono (fun ha => by simp [List.any_append, ha])
  · exact ite_one_mono (fun ha => by simp [List.any_append, ha])

/-- C2 witness: appending an uppercase letter to abc, which lacks
uppercase, does not decrease the score. -/
theorem C2_witness :
    classPresent (charClass 'A') ("abc".toList) = false
    ∧ strengthScore ("abc".toList) ≤ strengthScore ("abc".toList ++ ['A']) :=
  ⟨by decide, C2_score_append_mono ("abc".toList) 'A' (by decide)⟩

/-- C9: a strong rating requires score at least 5, and at most 4 points
come from character-class checks, so any password rated strong has length
at least 8. -/
theorem C9_strong_needs_length8 (p : List Char)
    (h : getPasswordStrength p = Strength.strong) : 8 ≤ p.length := by
  by_contra hlt
  push_neg at hlt
  have hs : strengthScore p ≤ 4 := by
    have h8 : ¬ (8 ≤ p.length) := by omega
    have h12 : ¬ (12 ≤ p.length) := by omega
    unfold strengthScore
    rw [if_neg h8, if_neg h12]
    split_ifs <;> omega
  unfold getPasswordStrength at h
  split_ifs at h

/-- C9 witness: Abc123!@#xyz is rated strong and indeed has length at
least 8. -/
theorem C9_witness :
    getPasswordStrength ("Abc123!@#xyz".toList) = Strength.strong
    ∧ 8 ≤ ("Abc123!@#xyz".toList).length :=
  ⟨by decide, C9_strong_needs_length8 ("Abc123!@#xyz".toList) (by decide)⟩

/-! ## Validation schemas

Each zod string field is a chain of checks run in order; the resolver
reports the first failed check of the chain as the field error. A `.trim()`
link transforms the value before the later checks see it. -/

/-- Whitespace for the trim transform and the `\s` regex class, in the
common ASCII cases: space, tab, line feed, carriage return, vertical tab,
form feed. -/
def isSpaceChar (c : Char) : Bool :=
  c = ' ' || c = '\t' || c = '\n' || c = '\r' || c = '\x0b' || c = '\x0c'

/-- The trim transform: leading and trailing whitespace removed. -/
def trimChars (s : List Char) : List Char :=
  ((s.dropWhile isSpaceChar).reverse.dropWhile isSpaceChar).reverse

/-- One link of a validation chain: a predicate and the message issued
when the predicate fails. -/
structure Check where
  ok : List Char → Bool
  msg : String

/-- The field error a chain produces: the message of the first failed
check, or none when every check passes. -/
def firstError : List Check → List Char → Option String
  | [], _ => none
  | c :: rest, s => if c.ok s then firstError rest s else some c.msg

/-- The password chain of `signupSchema` (Signup.tsx lines 49-56):
nonempty, min 8, max 100, regex `[A-Z]`, regex `[a-z]`, regex `[0-9]`,
in that order. -/
def signupPasswordChecks : List Check :=
  [ ⟨fun s => decide (0 < s.length), "Password is required"⟩,
    ⟨fun s => decide (8 ≤ s.length), "Password must be at least 8 characters"⟩,
    ⟨fun s => decide (s.length ≤ 100), "Password must be less than 100 characters"⟩,
    ⟨fun s => s.any Char.isUpper, "Password must contain at least one uppercase letter"⟩,
    ⟨fun s => s.any Char.isLower, "Password must contain at least one lowercase letter"⟩,
    ⟨fun s => s.any Char.isDigit, "Password must contain at least one number"⟩ ]

/-- The signup password field error (no trim link on this field). -/
def signupPasswordError (s : List Char) : Option String :=
  firstError signupPasswordChecks s

/-- The password-field rule exactly as the claim words it: non-empty,
length at least 8 and at most 100, an uppercase letter, a lowercase
letter, a digit, rejected with the message of the first violated
constraint in that order. -/
def specSignupPasswordRef (p : List Char) : Option String :=
  if p = [] then some "Password is required"
  else if p.length < 8 then some "Password must be at least 8 characters"
  else if 100 < p.length then some "Password must be less than 100 characters"
  else if ¬ (p.any Char.isUpper = true) then
    some "Password must contain at least one uppercase letter"
  else if ¬ (p.any Char.isLower = true) then
    some "Password must contain at least one lowercase letter"
  else if ¬ (p.any Char.isDigit = true) then
    some "Password must contain at least one number"
  else none

/-- C3: the signup password field accepts a value exactly when it is
non-empty, has length in [8, 100], and contains an uppercase letter, a
lowercase letter and a digit; a rejected value gets the message of the
first violated constraint in that order. -/
theorem C3_signup_password_rule (p : List Char) :
    (signupPasswordError p = none ↔
      (p ≠ [] ∧ 8 ≤ p.length ∧ p.length ≤ 100
        ∧ p.any Char.isUpper = true ∧ p.any Char.isLower = true
        ∧ p.any Char.isDigit = true))
    ∧ signupPasswordError p = specSignupPasswordRef p := by
  by_cases hp : p = []
  · subst hp
    decide
  · have hpos : 0 < p.length := List.length_pos.mpr hp
    unfold signupPasswordError signupPasswordChecks specSignupPasswordRef
    simp only [firstError, decide_eq_true_eq]
    constructor
    · split_ifs <;> simp_all
    · split_ifs <;> simp_all <;> omega

/-- Characters of the local-part class `[a-zA-Z0-9._%+-]` of EMAIL_REGEX
(Login.tsx line 33). -/
def isLocalChar (c : Char) : Bool :=
  c.isAlpha || c.isDigit || c = '.' || c = '_' || c = '%' || c = '+' || c = '-'

/-- Characters of the domain class `[a-zA-Z0-9.-]` of EMAIL_REGEX. -/
def isDomainChar (c : Char) : Bool :=
  c.isAlpha || c.isDigit || c = '.' || c = '-'

/-- The anchored body `[a-zA-Z0-9._%+-]+@[a-zA-Z0-9.-]+\.[a-zA-Z]{2,}` of
EMAIL_REGEX: the string decomposes as local part, at-sign, domain part,
dot, and a tld of at least two letters, with local and domain parts
nonempty. Neither character class contains the at-sign, so searching all
index pairs for the at-sign and the final dot captures exactly the
backtracking matches of the regex body. -/
def emailBodyMatch (s : List Char) : Bool :=
  (List.range s.length).any fun i =>
    (List.range s.length).any fun j =>
      decide (0 < i) && decide (i + 1 < j) && decide (j + 3 ≤ s.length)
        && (s.get? i == some '@') && (s.get? j == some '.')
        && (s.take i).all isLocalChar
        && ((s.drop (i + 1)).take (j - i - 1)).all isDomainChar
        && (s.drop (j + 1)).all Char.isAlpha

/-- The `(?!\.)` lookahead of EMAIL_REGEX: the string starts with a dot. -/
def startsWithDot : List Char → Bool
  | '.' :: _ => true
  | _ => false

/-- The `(?!.*\.@)` lookahead of EMAIL_REGEX: a dot immediately followed
by an at-sign occurs somewhere. The body classes contain no line
terminator, so the dot-star line-boundary subtlety cannot affect any
string the body accepts. -/
def containsDotAtSign : List Char → Bool
  | [] => false
  | '.' :: '@' :: _ => true
  | _ :: rest => containsDotAtSign rest

/-- EMAIL_REGEX from Login.tsx line 33: both negative lookaheads plus the
anchored body. -/
def emailRegexMatch (s : List Char) : Bool :=
  !startsWithDot s && !containsDotAtSign s && emailBodyMatch s

/-- The email chain of `loginSchema` (Login.tsx lines 40-44): trim, then
nonempty, then the EMAIL_REGEX test. -/
def loginEmailChecks : List Check :=
  [ ⟨fun s => decide (0 < s.length), "Email is required"⟩,
    ⟨emailRegexMatch, "Please enter a valid email address"⟩ ]

/-- The login email field error, computed on the trimmed value. -/
def loginEmailError (s : List Char) : Option String :=
  firstError loginEmailChecks (trimChars s)

/-- The password chain of `loginSchema` (Login.tsx lines 45-49):
nonempty, min 8, max 15. -/
def loginPasswordChecks : List Check :=
  [ ⟨fun s => decide (0 < s.length), "Password is required"⟩,
    ⟨fun s => decide (8 ≤ s.length), "Password must be at least 8 characters"⟩,
    ⟨fun s => decide (s.length ≤ 15), "Password must be at most 15 characters"⟩ ]

/-- The login password field error. -/
def loginPasswordError (s : List Char) : Option String :=
  firstError loginPasswordChecks s

/-- The login form data: email, password, optional remember-me flag
(defaulted to false by the form controller). -/
structure LoginForm where
  email : List Char
  password : List Char
  rememberMe : Bool
deriving Repr, DecidableEq

/-- The per-field error map of the login schema. -/
structure LoginErrors where
  email : Option String
  password : Option String
deriving Repr, DecidableEq

/-- Validation of the whole login form. -/
def loginValidate (f : LoginForm) : LoginErrors :=
  ⟨loginEmailError f.email, loginPasswordError f.password⟩

/-- The form controller calls the submit handler only when the error map
is empty. -/
def loginSubmitAllowed (f : LoginForm) : Bool :=
  (loginValidate f).email.isNone && (loginValidate f).password.isNone

/-- The fullName chain of `signupSchema` (Signup.tsx lines 36-42): trim,
nonempty, min 2, max 100, regex letters-and-spaces (the regex body is
one-or-more, hence the nonemptiness conjunct). -/
def fullNameChecks : List Check :=
  [ ⟨fun s => decide (0 < s.length), "Full name is required"⟩,
    ⟨fun s => decide (2 ≤ s.length), "Name must be at least 2 characters"⟩,
    ⟨fun s => decide (s.length ≤ 100), "Name must be less than 100 characters"⟩,
    ⟨fun s => decide (0 < s.length) && s.all (fun c => c.isAlpha || isSpaceChar c),
      "Name can only contain letters and spaces"⟩ ]

/-- The signup fullName field error, computed on the trimmed value. -/
def fullNameError (s : List Char) : Option String :=
  firstError fullNameChecks (trimChars s)

/-- The email chain of `signupSchema` (Signup.tsx lines 43-48): trim,
nonempty, the library email-shape test (modelled by the same email-shaped
pattern the login page spells out), max 255. -/
def signupEmailChecks : List Check :=
  [ ⟨fun s => decide (0 < s.length), "Email is required"⟩,
    ⟨emailRegexMatch, "Please enter a valid email address"⟩,
    ⟨fun s => decide (s.length ≤ 255), "Email must be less than 255 characters"⟩ ]

/-- The signup email field error, computed on the trimmed value. -/
def signupEmailError (s : List Char) : Option String :=
  firstError signupEmailChecks (trimChars s)

/-- The confirmPassword chain of `signupSchema` (Signup.tsx line 57):
nonempty only. -/
def confirmPasswordChecks : List Check :=
  [ ⟨fun s => decide (0 < s.length), "Please confirm your password"⟩ ]

/-- The signup confirmPassword field error. -/
def confirmPasswordError (s : List Char) : Option String :=
  firstError confirmPasswordChecks s

/-- The signup form data. -/
structure SignupForm where
  fullName : List Char
  email : List Char
  password : List Char
  confirmPassword : List Char
deriving Repr, DecidableEq

/-- The per-field error map of the signup schema. -/
structure SignupErrors where
  fullName : Option String
  email : Option String
  password : Option String
  confirmPassword : Option String
deriving Repr, DecidableEq

/-- The per-field part of `signupSchema`, before the refinement. -/
def signupFieldErrors (f : SignupForm) : SignupErrors :=
  ⟨fullNameError f.fullName, signupEmailError f.email,
    signupPasswordError f.password, confirmPasswordError f.confirmPassword⟩

/-- The message of the cross-field refinement (Signup.tsx line 60); its
apostrophe is written with the x27 escape. -/
def passwordsMismatchMsg : String := "Passwords don\x27t match"

/-- `signupSchema` validation including the `.refine` step (Signup.tsx
lines 59-62): the refinement runs only when every field parsed, and on
failure attaches its message to the confirmPassword path. -/
def signupValidate (f : SignupForm) : SignupErrors :=
  let e := signupFieldErrors f
  if e.fullName.isNone && e.email.isNone && e.password.isNone
      && e.confirmPassword.isNone then
    if f.password = f.confirmPassword then e
    else ⟨e.fullName, e.email, e.password, some passwordsMismatchMsg⟩
  else e

/-- The form controller calls the signup submit handler only when the
error map is empty. -/
def signupSubmitAllowed (f : SignupForm) : Bool :=
  (signupValidate f).fullName.isNone && (signupValidate f).email.isNone
    && (signupValidate f).password.isNone
    && (signupValidate f).confirmPassword.isNone

/-- C4: when every per-field constraint passes but the passwords differ,
validation attaches the mismatch message to the confirmPassword field,
leaves the password field without error, and blocks submission. -/
theorem C4_password_mismatch (f : SignupForm)
    (hf : signupFieldErrors f = ⟨none, none, none, none⟩)
    (hne : f.password ≠ f.confirmPassword) :
    (signupValidate f).confirmPassword = some passwordsMismatchMsg
    ∧ (signupValidate f).password = none
    ∧ signupSubmitAllowed f = false := by
  simp [signupSubmitAllowed, signupValidate, hf, hne]

/-- Concrete signup form used to instantiate C4: all fields valid except
that the two passwords differ in their final character. -/
def c4Form : SignupForm :=
  ⟨"John Doe".toList, "user@example.com".toList,
    "Abcdef12".toList, "Abcdef13".toList⟩

/-- C4 witness: the concrete mismatched form is field-valid, its
passwords differ, and validation behaves as claimed. -/
theorem C4_witness :
    signupFieldErrors c4Form = ⟨none, none, none, none⟩
    ∧ c4Form.password ≠ c4Form.confirmPassword
    ∧ (signupValidate c4Form).confirmPassword = some passwordsMismatchMsg
    ∧ (signupValidate c4Form).password = none
    ∧ signupSubmitAllowed c4Form = false :=
  ⟨by decide, by decide,
    (C4_password_mismatch c4Form (by decide) (by decide)).1,
    (C4_password_mismatch c4Form (by decide) (by decide)).2.1,
    (C4_password_mismatch c4Form (by decide) (by decide)).2.2⟩

/-! ## Submission workflow

The submit handlers are async functions whose only suspension point is
the simulated API call; the embedding passes the outcome of that await
explicitly and threads page state (the component flags plus append-only
logs of issued toasts, storage traffic and scheduled navigations) through
the try/catch structure. Totality of the handlers encodes that a failing
await is caught rather than propagated. -/

/-- Notification kinds of the toast surface. -/
inductive ToastKind
  | success
  | error
  | info
deriving Repr, DecidableEq

/-- A user-facing notification: kind, title, description. -/
structure Toast where
  kind : ToastKind
  title : String
  description : String
deriving Repr, DecidableEq

/-- Observable page state: the two component flags, and append-only logs
of issued toasts, storage writes, storage reads and scheduled
navigations. -/
structure PageState where
  isLoading : Bool
  isSuccess : Bool
  toasts : List Toast
  storageWrites : List (String × String)
  storageReads : List String
  navScheduled : List String
deriving Repr, DecidableEq

/-- The page state before any interaction. -/
def initialPageState : PageState := ⟨false, false, [], [], [], []⟩

/-- `setIsLoading` state update. -/
def setIsLoading (s : PageState) (b : Bool) : PageState :=
  ⟨b, s.isSuccess, s.toasts, s.storageWrites, s.storageReads, s.navScheduled⟩

/-- `setIsSuccess` state update. -/
def setIsSuccess (s : PageState) (b : Bool) : PageState :=
  ⟨s.isLoading, b, s.toasts, s.storageWrites, s.storageReads, s.navScheduled⟩

/-- A toast call: appends one notification to the log. -/
def emitToast (s : PageState) (t : Toast) : PageState :=
  ⟨s.isLoading, s.isSuccess, s.toasts ++ [t], s.storageWrites, s.storageReads,
    s.navScheduled⟩

/-- `localStorage.setItem`: appends one write to the storage-write log. -/
def localStorageSetItem (s : PageState) (k v : String) : PageState :=
  ⟨s.isLoading, s.isSuccess, s.toasts, s.storageWrites ++ [(k, v)],
    s.storageReads, s.navScheduled⟩

/-- A delayed `navigate(route)`: appends the target to the log. -/
def scheduleNavigate (s : PageState) (route : String) : PageState :=
  ⟨s.isLoading, s.isSuccess, s.toasts, s.storageWrites, s.storageReads,
    s.navScheduled ++ [route]⟩

/-- The simulated API call of both pages: a fixed-delay timer wrapped in
a promise that always resolves. -/
def placeholderApi : Except String Unit := Except.ok ()

/-- `onSubmit` of Login.tsx (lines 92-123), with the awaited outcome made
explicit: the try block sets the loading flag and awaits the call; on
resolution it stores the remember-me flag when opted in, toasts success
and schedules navigation home; the catch clause toasts the generic
failure; the finally clause clears the loading flag on both paths. -/
def loginOnSubmit (d : LoginForm) (api : Except String Unit)
    (s : PageState) : PageState :=
  let s1 := setIsLoading s true
  match api with
  | Except.ok _ =>
    let s2 := if d.rememberMe then localStorageSetItem s1 "rememberMe" "true" else s1
    let s3 := emitToast s2 ⟨ToastKind.success, "Login successful! Welcome back.",
      "Redirecting to dashboard..."⟩
    let s4 := scheduleNavigate s3 "/"
    setIsLoading s4 false
  | Except.error _ =>
    let s2 := emitToast s1 ⟨ToastKind.error, "Login failed",
      "Invalid email or password. Please try again."⟩
    setIsLoading s2 false

/-- `onSubmit` of Signup.tsx (lines 136-164): the try block sets the
loading flag and awaits the call; on resolution it sets the success flag,
toasts success and schedules navigation to the login page; the catch
clause toasts the generic failure and clears the loading flag; there is
no finally clause. -/
def signupOnSubmit (_d : SignupForm) (api : Except String Unit)
    (s : PageState) : PageState :=
  let s1 := setIsLoading s true
  match api with
  | Except.ok _ =>
    let s2 := setIsSuccess s1 true
    let s3 := emitToast s2 ⟨ToastKind.success, "Account created successfully!",
      "Welcome aboard! Redirecting to login..."⟩
    scheduleNavigate s3 "/login"
  | Except.error _ =>
    let s2 := emitToast s1 ⟨ToastKind.error, "Registration failed",
      "Something went wrong. Please try again."⟩
    setIsLoading s2 false

/-- `handleSubmit(onSubmit)` of the login form: the resolver invokes the
handler only when validation passes. -/
def loginHandleSubmit (f : LoginForm) (api : Except String Unit)
    (s : PageState) : PageState :=
  if loginSubmitAllowed f then loginOnSubmit f api s else s

/-- `handleSubmit(onSubmit)` of the signup form. -/
def signupHandleSubmit (f : SignupForm) (api : Except String Unit)
    (s : PageState) : PageState :=
  if signupSubmitAllowed f then signupOnSubmit f api s else s

/-- The error-kind notifications within a toast log. -/
def errorToasts (l : List Toast) : List Toast :=
  l.filter (fun t => decide (t.kind = ToastKind.error))

/-- C5 counterexample: the empty email fails the pattern check, yet its
single email error entry carries the required-field message, not the
pattern message the claim names for every pattern failure. -/
theorem C5_counterexample :
    emailRegexMatch (trimChars ("".toList)) = false
    ∧ loginEmailError ("".toList) = some "Email is required"
    ∧ ¬ loginEmailError ("".toList) = some "Please enter a valid email address" := by
  decide

/-- C5 (amended): for every login submission whose email fails the
pattern check, the email field carries exactly one error entry, whose
message is the pattern message when the trimmed email is non-empty and
the required-field message when it is empty; validation blocks the
submission, so the workflow never enters submitting and the loading flag
stays as it was. -/
theorem C5_invalid_email_blocks (f : LoginForm) (api : Except String Unit)
    (s : PageState) (h : emailRegexMatch (trimChars f.email) = false) :
    loginEmailError f.email
      = some (if trimChars f.email = [] then "Email is required"
              else "Please enter a valid email address")
    ∧ loginSubmitAllowed f = false
    ∧ loginHandleSubmit f api s = s
    ∧ (loginHandleSubmit f api s).isLoading = s.isLoading := by
  have he : loginEmailError f.email
      = some (if trimChars f.email = [] then "Email is required"
              else "Please enter a valid email address") := by
    by_cases h0 : trimChars f.email = []
    · simp [loginEmailError, loginEmailChecks, firstError, h0]
    · have hpos : 0 < (trimChars f.email).length := List.length_pos.mpr h0
      simp [loginEmailError, loginEmailChecks, firstError, h0, hpos, h]
  have hb : loginSubmitAllowed f = false := by
    simp [loginSubmitAllowed, loginValidate, he]
  have hs : loginHandleSubmit f api s = s := by
    simp [loginHandleSubmit, hb]
  exact ⟨he, hb, hs, by rw [hs]⟩

/-- Concrete login form used to instantiate the amended C5: the scenario
email that fails the pattern, with a length-valid password. -/
def c5Form : LoginForm := ⟨"not-an-email".toList, "Passw0rd1".toList, false⟩

/-- C5 witness: the scenario email fails the pattern check, gets the
pattern message, and the submission is blocked with loading unchanged. -/
theorem C5_witness :
    emailRegexMatch (trimChars c5Form.email) = false
    ∧ loginEmailError c5Form.email
        = some (if trimChars c5Form.email = [] then "Email is required"
                else "Please enter a valid email address")
    ∧ loginSubmitAllowed c5Form = false
    ∧ loginHandleSubmit c5Form placeholderApi initialPageState = initialPageState
    ∧ (loginHandleSubmit c5Form placeholderApi initialPageState).isLoading
        = initialPageState.isLoading :=
  ⟨by decide,
    (C5_invalid_email_blocks c5Form placeholderApi initialPageState (by decide)).1,
    (C5_invalid_email_blocks c5Form placeholderApi initialPageState (by decide)).2.1,
    (C5_invalid_email_blocks c5Form placeholderApi initialPageState (by decide)).2.2.1,
    (C5_invalid_email_blocks c5Form placeholderApi initialPageState (by decide)).2.2.2⟩

/-- C6: the durable rememberMe flag is written, with value true, exactly
on a resolved login submission with the opt-in set; a failed call writes
nothing; and no path of the handler reads storage. -/
theorem C6_rememberMe_write (d : LoginForm) (s : PageState) :
    (loginOnSubmit d (Except.ok ()) s).storageWrites
      = s.storageWrites ++ (if d.rememberMe then [("rememberMe", "true")] else [])
    ∧ (∀ e, (loginOnSubmit d (Except.error e) s).storageWrites = s.storageWrites)
    ∧ (∀ api, (loginOnSubmit d api s).storageReads = s.storageReads) := by
  refine ⟨?_, fun e => rfl, fun api => ?_⟩
  · by_cases hr : d.rememberMe <;>
      simp [loginOnSubmit, setIsLoading, emitToast, localStorageSetItem,
        scheduleNavigate, hr]
  · cases api <;> by_cases hr : d.rememberMe <;>
      simp [loginOnSubmit, setIsLoading, emitToast, localStorageSetItem,
        scheduleNavigate, hr]

/-- C7: a failing asynchronous step is caught (the handlers are total):
each page issues exactly one generic error notification and ends with the
loading flag cleared so the user can retry. -/
theorem C7_failure_handled (dL : LoginForm) (dS : SignupForm) (e : String)
    (s t : PageState) :
    (loginOnSubmit dL (Except.error e) s).toasts
      = s.toasts ++ [⟨ToastKind.error, "Login failed",
          "Invalid email or password. Please try again."⟩]
    ∧ (loginOnSubmit dL (Except.error e) s).isLoading = false
    ∧ (signupOnSubmit dS (Except.error e) t).toasts
      = t.toasts ++ [⟨ToastKind.error, "Registration failed",
          "Something went wrong. Please try again."⟩]
    ∧ (signupOnSubmit dS (Except.error e) t).isLoading = false :=
  ⟨rfl, rfl, rfl, rfl⟩

/-- C8: the placeholder asynchronous step always resolves, so for every
schema-valid input the submitting-to-failed transition is unreachable:
neither page ever adds an error notification when submitting through the
placeholder. -/
theorem C8_placeholder_never_fails (dL : LoginForm) (dS : SignupForm)
    (s t : PageState) (hL : loginSubmitAllowed dL = true)
    (hS : signupSubmitAllowed dS = true) :
    (∀ e, placeholderApi ≠ Except.error e)
    ∧ errorToasts (loginHandleSubmit dL placeholderApi s).toasts
        = errorToasts s.toasts
    ∧ errorToasts (signupHandleSubmit dS placeholderApi t).toasts
        = errorToasts t.toasts := by
  have hne : ∀ e, placeholderApi ≠ Except.error e := by
    intro e h
    cases h
  refine ⟨hne, ?_, ?_⟩
  · by_cases hr : dL.rememberMe <;>
      simp [loginHandleSubmit, hL, placeholderApi, loginOnSubmit, setIsLoading,
        emitToast, localStorageSetItem, scheduleNavigate, errorToasts,
        List.filter_append, hr]
  · simp [signupHandleSubmit, hS, placeholderApi, signupOnSubmit, setIsLoading,
      setIsSuccess, emitToast, scheduleNavigate, errorToasts, List.filter_append]

/-- Concrete schema-valid login form for the C8 witness. -/
def c8LoginForm : LoginForm := ⟨"user@example.com".toList, "Passw0rd1".toList, false⟩

/-- Concrete schema-valid signup form for the C8 witness. -/
def c8SignupForm : SignupForm :=
  ⟨"John Doe".toList, "user@example.com".toList,
    "Abcdef12".toList, "Abcdef12".toList⟩

/-- C8 witness: both concrete forms are schema-valid and both placeholder
submissions add no error notification. -/
theorem C8_witness :
    loginSubmitAllowed c8LoginForm = true
    ∧ signupSubmitAllowed c8SignupForm = true
    ∧ (∀ e, placeholderApi ≠ Except.error e)
    ∧ errorToasts (loginHandleSubmit c8LoginForm placeholderApi initialPageState).toasts
        = errorToasts initialPageState.toasts
    ∧ errorToasts (signupHandleSubmit c8SignupForm placeholderApi initialPageState).toasts
        = errorToasts initialPageState.toasts :=
  ⟨by decide, by decide,
    (C8_placeholder_never_fails c8LoginForm c8SignupForm initialPageState
      initialPageState (by decide) (by decide)).1,
    (C8_placeholder_never_fails c8LoginForm c8SignupForm initialPageState
      initialPageState (by decide) (by decide)).2.1,
    (C8_placeholder_never_fails c8LoginForm c8SignupForm initialPageState
      initialPageState (by decide) (by decide)).2.2⟩

/-- C10: a resolved signup submission leaves the loading flag set and the
success flag set (loading is reset only on the failure path), while the
login handler clears loading on every path through its finally clause. -/
theorem C10_signup_keeps_loading (dS : SignupForm) (dL : LoginForm)
    (s t : PageState) :
    (signupOnSubmit dS (Except.ok ()) s).isLoading = true
    ∧ (signupOnSubmit dS (Except.ok ()) s).isSuccess = true
    ∧ (∀ e, (signupOnSubmit dS (Except.error e) s).isLoading = false)
    ∧ (∀ api, (loginOnSubmit dL api t).isLoading = false) := by
  refine ⟨rfl, rfl, fun e => rfl, fun api => ?_⟩
  cases api <;> rfl

end SignupVista
